import Mathlib

/-!
Verification of the man-page generator of `charmstore-client`
(`scripts/jujuman.py` and `scripts/generate-manpage.py`).

Python strings are modelled as Lean `String`s (lists of characters); the
relevant `str` methods (`strip`, `lower`, `split`, `lstrip`, `startswith`,
substring membership, `replace`) are embedded below with Python's semantics.
Fallible Python code (expressions that can raise) is modelled with `Except`.
All inputs that matter to the claims are ASCII, so ASCII case folding and the
ASCII whitespace set are used.
-/

set_option maxHeartbeats 4000000
set_option maxRecDepth 8000

/-! ## Python string primitives -/

/-- Characters stripped by Python `str.strip()` / `bytes.strip()` with no
argument (the ASCII whitespace set). -/
def isPySpace (c : Char) : Bool :=
  c == ' ' || c == '\t' || c == '\n' || c == '\r' || c == '\x0b' || c == '\x0c'

/-- Python `s.strip()`: remove leading and trailing whitespace. -/
def pyStrip (s : String) : String :=
  ⟨((s.data.dropWhile isPySpace).reverse.dropWhile isPySpace).reverse⟩

/-- Python `s.lower()` (ASCII case folding; every string compared against the
lowercased result in the source is ASCII). -/
def pyLower (s : String) : String :=
  ⟨s.data.map Char.toLower⟩

/-- Python `s.lstrip('- ')`: remove leading `-` and space characters. -/
def lstripDashSpace (s : String) : String :=
  ⟨s.data.dropWhile (fun c => c == '-' || c == ' ')⟩

/-- Core of Python `s.split(sep)` (split at every separator occurrence). -/
def pySplitL (c : Char) : List Char → List (List Char)
  | [] => [[]]
  | a :: as =>
    match pySplitL c as with
    | [] => [[]]
    | h :: t => if a = c then [] :: h :: t else (a :: h) :: t

/-- Python `s.split(sep)` for a one-character separator. -/
def pySplit (s : String) (c : Char) : List String :=
  (pySplitL c s.data).map String.mk

/-- Core of Python `s.split(sep, 1)`: split at the first occurrence only;
yields `[s]` when the separator is absent and `[before, after]` otherwise. -/
def splitOnceL (c : Char) : List Char → List (List Char)
  | [] => [[]]
  | a :: as =>
    if a = c then [[], as]
    else
      match splitOnceL c as with
      | [] => [[a]]
      | x :: rest => (a :: x) :: rest

/-- Python `s.split(sep, 1)` for a one-character separator. -/
def splitOnce (s : String) (c : Char) : List String :=
  (splitOnceL c s.data).map String.mk

/-- Whether a character occurs in a character list. -/
def hasChar : List Char → Char → Bool
  | [], _ => false
  | a :: as, c => if a = c then true else hasChar as c

/-- Whether the first list starts with the second. -/
def strStarts : List Char → List Char → Bool
  | _, [] => true
  | [], _ :: _ => false
  | a :: as, b :: bs => if a = b then strStarts as bs else false

/-- Whether the second list occurs contiguously in the first
(Python `sub in s`). -/
def strHas : List Char → List Char → Bool
  | [], pat => pat.isEmpty
  | a :: as, pat => if strStarts (a :: as) pat then true else strHas as pat

/-- Python `sub in s` on strings. -/
def strHasS (s pat : String) : Bool :=
  strHas s.data pat.data

/-- Python `s.startswith(pre)`. -/
def pyStartsWith (s start : String) : Bool :=
  strStarts s.data start.data

/-- Number of (possibly overlapping) occurrences of `pat` in the list. -/
def countSub : List Char → List Char → Nat
  | [], _ => 0
  | a :: as, pat => (if strStarts (a :: as) pat then 1 else 0) + countSub as pat

/-- Occurrence count on strings. -/
def countSubS (s pat : String) : Nat :=
  countSub s.data pat.data

/-- Python `x in l` for a list of strings. -/
def strIn : String → List String → Bool
  | _, [] => false
  | s, a :: as => if a = s then true else strIn s as

/-- Python `''.join(l)`. -/
def strJoin : List String → String
  | [] => ""
  | s :: rest => s ++ strJoin rest

/-- Python truthiness of an optional string: `None` and `''` are falsy. -/
def pyTruthy : Option String → Bool
  | none => false
  | some s => if s = "" then false else true

/-- Python `a or d` for an optional string `a` and string default `d`
(`None` and `''` are falsy). -/
def pyOrStr (a : Option String) (d : String) : String :=
  match a with
  | none => d
  | some s => if s = "" then d else s

/-- Python `'%s' % v` for a value that may be `None`: `None` renders as the
string `"None"`. -/
def pyStr : Option String → String
  | none => "None"
  | some s => s

/-- Python `s.replace(c, r)` where the pattern `c` is a single character
(every `replace` in `man_escape` has a one-character pattern). -/
def pyReplaceChar (s : String) (c : Char) (r : String) : String :=
  ⟨(s.data.map (fun ch => if ch = c then r.data else [ch])).foldr List.append []⟩

/-- The backtick character (code 96). -/
def backtickChar : Char := Char.ofNat 96

/-- The single-quote character (code 39). -/
def squoteChar : Char := Char.ofNat 39

/-! ## `man_escape` (jujuman.py lines 194-200) -/

/-- `man_escape`: escapes strings for man page compatibility.  Four
`str.replace` calls applied in sequence: backslash, backtick, single quote,
hyphen. -/
def man_escape (s : String) : String :=
  let result := pyReplaceChar s '\\' "\\\\"
  let result := pyReplaceChar result backtickChar "\\'"
  let result := pyReplaceChar result squoteChar "\\*(Aq"
  pyReplaceChar result '-' "\\-"

/-! ## The help parser (jujuman.py lines 40-73)

`JujuMan.run_help` invokes `<cmd> help [<subcmd>]` as a subprocess and strips
the captured bytes; `JujuMan.help` decodes the result as UTF-8 and scans it
line by line.  The subprocess boundary is modelled by taking the decoded
help output as the input string; the `strip()` performed by `run_help` is
applied inside `JujuMan.help` below. -/

/-- The Python dict `states`, modelled as an association list (only string
keys are ever inserted, and `dictSet` overwrites like `states[k] = v`). -/
def dictSet : List (String × String) → String → String → List (String × String)
  | [], k, v => [(k, v)]
  | p :: rest, k, v => if p.1 = k then (k, v) :: rest else p :: dictSet rest k v

/-- Python `states.get(k, None)` / membership lookup. -/
def dictGet? : List (String × String) → String → Option String
  | [], _ => none
  | p :: rest, k => if p.1 = k then some p.2 else dictGet? rest k

/-- Python `states[k] += s` (only evaluated when `k in states`). -/
def dictAppendVal (m : List (String × String)) (k s : String) :
    List (String × String) :=
  m.map (fun p => if p.1 = k then (p.1, p.2 ++ s) else p)

/-- `known_states` (jujuman.py lines 44-45). -/
def known_states : List String :=
  ["commands:", "summary:", "options:", "details:", "examples:"]

/-- The loop state of the scan in `JujuMan.help`: the `states` dict, the
`state` variable (`None` before the first iteration) and the `commands`
accumulator. -/
structure HelpScan where
  states : List (String × String)
  state : Option String
  commands : List (String × String)

/-- Initial loop state (`commands = []`, `states = {}`, `state = None`). -/
def helpInit : HelpScan := { states := [], state := none, commands := [] }

/-- The body of the `commands:` branch (jujuman.py lines 55-64): split the
stripped line once on a space; skip it if it has no description or if the
description contains `alias for`; otherwise strip leading `- ` from the
description and append the `(name, description)` pair. -/
def commandsStep (commands : List (String × String)) (line : String) :
    List (String × String) :=
  match splitOnce line ' ' with
  | [name, short_help] =>
    if strHasS short_help "alias for" then commands
    else commands ++ [(name, pyStrip (lstripDashSpace short_help))]
  | _ => commands

/-- One iteration of the scan loop (jujuman.py lines 48-66).  Note that the
source assigns `state = line.lower()` at the top of *every* iteration
(line 50), so `state` never retains the previously seen header. -/
def helpLine (acc : HelpScan) (rawLine : String) : HelpScan :=
  if strIn (pyLower (pyStrip rawLine)) known_states then
    { states := dictSet acc.states (pyLower (pyStrip rawLine)) ""
      state := some (pyLower (pyStrip rawLine))
      commands := acc.commands }
  else if pyLower (pyStrip rawLine) = "commands:" then
    { states := acc.states
      state := some (pyLower (pyStrip rawLine))
      commands := commandsStep acc.commands (pyStrip rawLine) }
  else if (dictGet? acc.states (pyLower (pyStrip rawLine))).isSome then
    { states := dictAppendVal acc.states (pyLower (pyStrip rawLine))
        ("\n" ++ pyStrip rawLine)
      state := some (pyLower (pyStrip rawLine))
      commands := acc.commands }
  else
    { states := acc.states
      state := some (pyLower (pyStrip rawLine))
      commands := acc.commands }

/-- The whole scan: strip the captured help output (done by `run_help`),
split on newlines, fold the loop body over the lines. -/
def helpScanOf (helpOutput : String) : HelpScan :=
  (pySplit (pyStrip helpOutput) '\n').foldl helpLine helpInit

/-- `JujuMan.format_options` (jujuman.py lines 131-148).  Python returns
`None` for falsy input (`None` or `''`).  A non-blank line that does not
start with `-` while `prev` is still `None` raises a `TypeError`
(`prev[0]` on `None`), modelled by `Except.error`.  The pair held in `prev`
when the line loop ends is never appended to `olist`. -/
def format_options_go : List String → List (String × String) →
    Option (String × String) → Except String (Option String)
  | [], olist, _ =>
    .ok (some (strJoin (olist.map (fun cd =>
      ".PP\n" ++ cd.1 ++ "\n.RS 4\n" ++ cd.2 ++ "\n.RE\n"))))
  | line :: rest, olist, prev =>
    if line = "" then format_options_go rest olist prev
    else if pyStartsWith line "-" then
      match prev with
      | some p => format_options_go rest (olist ++ [p]) (some (line, ""))
      | none => format_options_go rest olist (some (line, ""))
    else
      match prev with
      | none => .error "TypeError: NoneType object is not subscriptable"
      | some p => format_options_go rest olist (some (p.1, p.2 ++ line))

/-- `JujuMan.format_options` entry point. -/
def JujuMan.format_options (options : Option String) :
    Except String (Option String) :=
  if pyTruthy options then
    format_options_go (pySplit (options.getD "") '\n') [] none
  else .ok none

/-- The tuple returned by `JujuMan.help` (summary, options, details,
examples, commands). -/
structure HelpResult where
  summary : Option String
  options : Option String
  details : Option String
  examples : Option String
  commands : List (String × String)

/-- `JujuMan.help` (jujuman.py lines 40-73): scan the help output, then
replace `states['options:']` with `format_options(states.get('options:'))`
and return the five results. -/
def JujuMan.help (helpOutput : String) : Except String HelpResult :=
  match JujuMan.format_options (dictGet? (helpScanOf helpOutput).states "options:") with
  | .error e => .error e
  | .ok opts =>
    .ok { summary := dictGet? (helpScanOf helpOutput).states "summary:"
          options := opts
          details := dictGet? (helpScanOf helpOutput).states "details:"
          examples := dictGet? (helpScanOf helpOutput).states "examples:"
          commands := (helpScanOf helpOutput).commands }


/-- Invariant of the scan: every entry of the `states` dict has a known
header as key and the empty string as value. -/
def goodStates (m : List (String × String)) : Prop :=
  ∀ p, p ∈ m → strIn p.1 known_states = true ∧ p.2 = ""


/-! ## File list formatter and document assembly
(jujuman.py lines 75-129, 150-157, 203-275; generate-manpage.py lines 16-58) -/

/-- The join inside `JujuMan.format_files`: one `.TP`/`.I`/description block
per newline-separated entry, each entry split once on the tab character.  An
entry with no tab makes the `'{}'.format(*line.split('\t', 1))` call raise an
`IndexError`, modelled by `Except.error`. -/
def format_files_go : List String → Except String String
  | [] => .ok ""
  | line :: rest =>
    match splitOnce line '\t' with
    | [path, descr] =>
      match format_files_go rest with
      | .error e => .error e
      | .ok r => .ok (".TP\n.I \"" ++ path ++ "\"\n" ++ descr ++ "\n" ++ r)
    | _ => .error "IndexError: Replacement index 1 out of range"

/-- `JujuMan.format_files` (jujuman.py lines 150-157): `None` for falsy
input, otherwise the joined blocks (or the propagated error). -/
def JujuMan.format_files (files : Option String) :
    Except String (Option String) :=
  if pyTruthy files then
    match format_files_go (pySplit (files.getD "") '\n') with
    | .error e => .error e
    | .ok s => .ok (some s)
  else .ok none

/-- `ENVIRONMENT` (jujuman.py lines 160-191): the static table is empty. -/
def ENVIRONMENT : List (String × String) := []

/-- `environment_variables` (jujuman.py lines 203-210): the generator's
yields, with the three yields per table entry concatenated into one string
(the caller only ever joins them). -/
def environment_variables : List String :=
  (if ENVIRONMENT.isEmpty then [] else [".SH \"ENVIRONMENT\"\n"]) ++
  ENVIRONMENT.map (fun kd =>
    ".TP\n" ++ ".I \"" ++ kd.1 ++ "\"\n" ++ man_escape kd.2 ++ "\n")

/-- `man_preamble % params` (jujuman.py lines 213-225). -/
def man_preamble_fmt (cmd timestamp : String) : String :=
  ".\\\"Man page for " ++ cmd ++ "\n"
  ++ ".\\\"\n"
  ++ ".\\\" Large parts of this file are autogenerated from the output of\n"
  ++ ".\\\"     \"" ++ cmd ++ " help commands\"\n"
  ++ ".\\\"     \"" ++ cmd ++ " help <cmd>\"\n"
  ++ ".\\\"\n"
  ++ ".\\\" Generation time: " ++ timestamp ++ "\n"
  ++ ".\\\"\n"
  ++ "\n"
  ++ ".ie \\n(.g .ds Aq \\(aq\n"
  ++ ".el .ds Aq '\n"

/-- `man_head % params` (jujuman.py lines 227-231). -/
def man_head_fmt (cmd hsubcmd datestamp version title summary : String) :
    String :=
  ".TH " ++ cmd ++ hsubcmd ++ " 1 \"" ++ datestamp ++ "\" \"" ++ version
    ++ "\" \"" ++ title ++ "\"\n"
  ++ ".SH \"NAME\"\n"
  ++ cmd ++ hsubcmd ++ " -- " ++ summary ++ "\n"

/-- `man_syn % params` (jujuman.py lines 233-247). -/
def man_syn_fmt (cmd subcmd : String) : String :=
  ".SH \"SYNOPSIS\"\n"
  ++ ".B \"" ++ cmd ++ " " ++ subcmd ++ "\"\n"
  ++ ".I \"command\"\n"
  ++ "[\n"
  ++ ".I \"command_options\"\n"
  ++ "]\n"
  ++ ".br\n"
  ++ ".B \"" ++ cmd ++ " " ++ subcmd ++ "\"\n"
  ++ ".B \"help\"\n"
  ++ ".br\n"
  ++ ".B \"" ++ cmd ++ " " ++ subcmd ++ "\"\n"
  ++ ".B \"help\"\n"
  ++ ".I \"command\"\n"

/-- `man_syn_sub % params` (jujuman.py lines 249-258). -/
def man_syn_sub_fmt (cmd subcmd : String) : String :=
  ".SH \"SYNOPSIS\"\n"
  ++ ".B \"" ++ cmd ++ " " ++ subcmd ++ "\"\n"
  ++ "[\n"
  ++ ".I \"options\"\n"
  ++ "]\n"
  ++ ".br\n"
  ++ ".B \"" ++ cmd ++ " " ++ subcmd ++ "\"\n"
  ++ ".B \"help\"\n"

/-- `man_desc % params` (jujuman.py lines 260-267). -/
def man_desc_fmt (description options : String) : String :=
  ".SH \"DESCRIPTION\"\n"
  ++ "\n"
  ++ description ++ "\n"
  ++ ".SH \"OPTIONS\"\n"
  ++ "\n"
  ++ options ++ "\n"

/-- `man_examples` (jujuman.py lines 269-271): empty template. -/
def man_examples : String := ""

/-- `man_files` (jujuman.py lines 273-275). -/
def man_files : String := ".SH \"FILES\"\n"

/-- `JujuMan.get_command_overview` (jujuman.py lines 122-129). -/
def JujuMan.get_command_overview (basecmd : String)
    (commands : List (String × String)) : String :=
  ".SH \"COMMAND OVERVIEW\"\n" ++
  strJoin (commands.map (fun c =>
    ".TP\n.B \"" ++ basecmd ++ " " ++ c.1 ++ "\"\n" ++ c.2 ++ "\n"))

/-- The `sac` ("see also" block) computation of `write_documentation`
(jujuman.py lines 106-112): a self-reference when no commands were
discovered, otherwise one `\fB<cmd>-<name>\fR(1), ` cross-reference per
command.  Written without `man_escape`. -/
def sacBlock (cmd : String) (commands : List (String × String)) : String :=
  ".SH \"SEE ALSO\"\n"
  ++ (if commands.isEmpty then "\\fB" ++ cmd ++ "\\fR(1), "
      else strJoin (commands.map (fun c =>
        "\\fB" ++ cmd ++ "-" ++ c.1 ++ "\\fR(1), ")))
  ++ "\n"

/-- The `JujuMan` instance attributes set by `__init__`
(jujuman.py lines 12-24). -/
structure JujuManCfg where
  cmd : String
  also : Option String
  files : Option String
  subcmd : Option String
  title : Option String
  version : Option String

/-- `JujuMan.__init__`: the `version` parameter defaults to `'0.0.1'` when
the Python caller omits the argument.  `versionArg = none` models an omitted
argument; `versionArg = some v` models an explicitly passed value, itself
possibly Python `None`. -/
def JujuMan.init (cmd : String) (also files subcmd title : Option String)
    (versionArg : Option (Option String)) : JujuManCfg :=
  { cmd := cmd, also := also, files := files, subcmd := subcmd, title := title,
    version := match versionArg with
      | none => some "0.0.1"
      | some v => v }

/-- `main` (generate-manpage.py lines 16-58): argparse leaves each optional
flag `None` when absent, and `main` always passes `version=options.version`
explicitly to `JujuMan`, so `__init__`'s `'0.0.1'` default is bypassed. -/
def mainCfg (utility : String)
    (also files subcommand title version : Option String) : JujuManCfg :=
  JujuMan.init utility also files subcommand title (some version)

/-- The files block written by `write_documentation` (jujuman.py lines
114-115): nothing for falsy `self.files`, otherwise
`man_escape(man_files + self.format_files())` (with `format_files`'s
exception propagating; were `format_files` to return `None` here the string
concatenation itself would raise, which cannot happen because the two
truthiness tests are identical). -/
def filesBlockOf (files : Option String) : Except String String :=
  if pyTruthy files then
    match JujuMan.format_files files with
    | .error e => .error e
    | .ok (some s) => .ok (man_escape (man_files ++ s))
    | .ok none => .error "TypeError: can only concatenate str"
  else .ok ""

/-- The concatenation of everything `write_documentation` writes, in write
order (jujuman.py lines 94-120), given the parsed help result and the
already-formatted files block.  `datestamp`/`timestamp` stand for the
wall-clock values computed at lines 77-78. -/
def assembleDoc (cfg : JujuManCfg) (r : HelpResult)
    (filesBlock datestamp timestamp : String) : String :=
  man_preamble_fmt cfg.cmd timestamp
  ++ man_escape (man_head_fmt cfg.cmd
      (if pyTruthy cfg.subcmd then "-" ++ cfg.subcmd.getD "" else "")
      datestamp (pyStr cfg.version) (pyStr cfg.title) (pyStr r.summary))
  ++ (if pyTruthy cfg.subcmd then
        man_escape (man_syn_sub_fmt cfg.cmd (pyOrStr cfg.subcmd " "))
      else man_escape (man_syn_fmt cfg.cmd (pyOrStr cfg.subcmd " ")))
  ++ man_escape (man_desc_fmt (pyStr r.details) (pyStr r.options))
  ++ (if r.commands.isEmpty then ""
      else man_escape (JujuMan.get_command_overview cfg.cmd r.commands))
  ++ (if pyTruthy r.examples then man_escape man_examples else "")
  ++ strJoin environment_variables
  ++ filesBlock
  ++ sacBlock cfg.cmd r.commands
  ++ (if pyTruthy cfg.also then
        man_escape (strJoin ((pySplit (cfg.also.getD "") '\t').map (fun a =>
          ".UR " ++ a ++ "\n.BR " ++ a)))
      else "")

/-- `JujuMan.write_documentation` (jujuman.py lines 75-120), as the full
text written to the output sink.  The incremental `outfile.write` calls are
modelled by assembling the document; an exception raised while formatting
(`format_options` via `help`, or `format_files`) propagates and aborts the
run, modelled by `Except.error`. -/
def JujuMan.write_documentation (cfg : JujuManCfg)
    (helpOutput datestamp timestamp : String) : Except String String :=
  match JujuMan.help helpOutput with
  | .error e => .error e
  | .ok r =>
    match filesBlockOf cfg.files with
    | .error e => .error e
    | .ok filesBlock => .ok (assembleDoc cfg r filesBlock datestamp timestamp)

/-- Whether a successfully generated document contains `pat` as a substring
(`false` when generation aborted). -/
def docContains (r : Except String String) (pat : String) : Bool :=
  match r with
  | .ok d => strHasS d pat
  | .error _ => false

/-- Occurrence count of `pat` in a successfully generated document
(`0` when generation aborted). -/
def docCount (r : Except String String) (pat : String) : Nat :=
  match r with
  | .ok d => countSubS d pat
  | .error _ => 0

/-! ## Theorems -/

/-! ## Claim C5 -/

/-- Claim C5 (counterexample): `man_escape` is *not* idempotent.  Escaping
the one-character string `-` yields a backslash followed by a hyphen; escaping
that output again doubles the backslash and escapes the hyphen once more, so
applying the function twice differs from applying it once. -/
theorem claim_C5_cex : man_escape (man_escape "-") ≠ man_escape "-" := by decide

/-- Claim C5 (amended): `man_escape` applied to the four one-character strings
yields, with the replacements performed in the fixed order backslash,
backtick, single-quote, hyphen: a backslash becomes two backslashes, a
backtick becomes a backslash followed by `*(Aq` with a doubled backslash
(its replacement's quote is itself rewritten by the later quote rule), a
single quote becomes `\*(Aq`, and a hyphen becomes `\-`.  The function is not
idempotent: re-escaping the escaped hyphen triples the backslash. -/
theorem claim_C5_amended :
    man_escape "\\" = "\\\\"
    ∧ man_escape "`" = "\\\\*(Aq"
    ∧ man_escape "'" = "\\*(Aq"
    ∧ man_escape "-" = "\\-"
    ∧ man_escape (man_escape "-") = ⟨['\\', '\\', '\\', '-']⟩ := by
  refine ⟨rfl, rfl, rfl, rfl, rfl⟩

/-! ## Claims C1, C2, C4 -/

/-- Claim C1: the claim states that a `commands:` section line
`"foo   does fooo things"` yields the command entry
`("foo", "does foo things")`.  The code does not: `state` is overwritten
with the current line's lowercased text on every iteration (jujuman.py
line 50), so when the parser reaches the content line the `state ==
'commands:'` test compares against the content line itself and fails; the
command list stays empty.  This theorem evaluates the code at the claim's
own input and exhibits the empty command list. -/
theorem claim_C1 :
    JujuMan.help "commands:\nfoo   does foo things" =
      Except.ok { summary := none, options := none, details := none,
                  examples := none, commands := [] } := by rfl

/-- Claim C2: the claim states that content lines following a section header
are appended, newline-joined, to that section's buffer.  The code does not:
because `state` is overwritten with the current line on every iteration
(jujuman.py line 50), the `state in states` append branch never fires, and a
present section's accumulated text stays `''`.  This theorem evaluates the
code at a `details:` section followed by a content line: the details buffer
is the empty string, not `"\nsome detail line"`. -/
theorem claim_C2 :
    JujuMan.help "details:\nsome detail line" =
      Except.ok { summary := none, options := none, details := some "",
                  examples := none, commands := [] } := by rfl

/-- Claim C4: the claim states that the options text
`"-a, --all\n    show all\n-b\n    brief"` formats to exactly two `.PP`
blocks.  The code emits only one: the pair held in `prev` when the loop
ends (`-b` / `    brief`) is never appended to `olist`, and descriptions
retain their leading indentation.  The final conjuncts confirm the claim's
absence behaviour: falsy input (`None` or `''`) yields `None`. -/
theorem claim_C4 :
    JujuMan.format_options (some "-a, --all\n    show all\n-b\n    brief") =
      Except.ok (some ".PP\n-a, --all\n.RS 4\n    show all\n.RE\n")
    ∧ JujuMan.format_options none = Except.ok none
    ∧ JujuMan.format_options (some "") = Except.ok none := by
  refine ⟨rfl, rfl, rfl⟩

/-! ### Claim C3: the scan state is overwritten every iteration, so the
parser degenerates; invariant proofs over the scan -/

theorem goodStates_nil : goodStates [] := by
  intro p hp
  cases hp

theorem goodStates_tail {q : String × String} {rest : List (String × String)}
    (h : goodStates (q :: rest)) : goodStates rest := by
  intro p hp
  exact h p (List.mem_cons_of_mem _ hp)

theorem goodStates_dictSet :
    ∀ (m : List (String × String)) (k : String), goodStates m →
      strIn k known_states = true → goodStates (dictSet m k "") := by
  intro m
  induction m with
  | nil =>
    intro k _ hk p hp
    simp only [dictSet, List.mem_singleton] at hp
    subst hp
    exact ⟨hk, rfl⟩
  | cons q rest ih =>
    intro k hm hk p hp
    simp only [dictSet] at hp
    by_cases hq : q.1 = k
    · rw [if_pos hq] at hp
      rcases List.mem_cons.mp hp with h | h
      · subst h
        exact ⟨hk, rfl⟩
      · exact hm p (List.mem_cons_of_mem _ h)
    · rw [if_neg hq] at hp
      rcases List.mem_cons.mp hp with h | h
      · subst h
        exact hm p (List.mem_cons_self _ _)
      · exact ih k (goodStates_tail hm) hk p h

theorem dictGet?_none_of_unknown :
    ∀ (m : List (String × String)) (k : String), goodStates m →
      strIn k known_states = false → dictGet? m k = none := by
  intro m
  induction m with
  | nil => intro k _ _; rfl
  | cons q rest ih =>
    intro k hm hk
    simp only [dictGet?]
    by_cases hq : q.1 = k
    · exfalso
      have h1 := (hm q (List.mem_cons_self _ _)).1
      rw [hq, hk] at h1
      exact Bool.noConfusion h1
    · rw [if_neg hq]
      exact ih k (goodStates_tail hm) hk

theorem dictGet?_good :
    ∀ (m : List (String × String)) (k : String), goodStates m →
      dictGet? m k = none ∨ dictGet? m k = some "" := by
  intro m
  induction m with
  | nil => intro k _; left; rfl
  | cons q rest ih =>
    intro k hm
    simp only [dictGet?]
    by_cases hq : q.1 = k
    · rw [if_pos hq]
      right
      rw [(hm q (List.mem_cons_self _ _)).2]
    · rw [if_neg hq]
      exact ih k (goodStates_tail hm)

theorem helpLine_inv (acc : HelpScan) (l : String)
    (hs : goodStates acc.states) (hc : acc.commands = []) :
    goodStates (helpLine acc l).states ∧ (helpLine acc l).commands = [] := by
  by_cases h1 : strIn (pyLower (pyStrip l)) known_states = true
  · simp only [helpLine, h1, if_true]
    exact ⟨goodStates_dictSet _ _ hs h1, hc⟩
  · have h1f : strIn (pyLower (pyStrip l)) known_states = false := by
      revert h1
      cases strIn (pyLower (pyStrip l)) known_states <;> simp
    by_cases h2 : pyLower (pyStrip l) = "commands:"
    · exfalso
      apply h1
      rw [h2]
      decide
    · have h3 : dictGet? acc.states (pyLower (pyStrip l)) = none :=
        dictGet?_none_of_unknown _ _ hs h1f
      simp only [helpLine, if_neg h1, if_neg h2, h3, Option.isSome_none,
        Bool.false_eq_true, if_false]
      exact ⟨hs, hc⟩

theorem foldl_helpLine_inv :
    ∀ (lines : List String) (acc : HelpScan), goodStates acc.states →
      acc.commands = [] →
      goodStates ((lines.foldl helpLine acc).states) ∧
        (lines.foldl helpLine acc).commands = [] := by
  intro lines
  induction lines with
  | nil => intro acc hs hc; exact ⟨hs, hc⟩
  | cons l rest ih =>
    intro acc hs hc
    have h := helpLine_inv acc l hs hc
    exact ih (helpLine acc l) h.1 h.2

theorem format_options_degenerate (v : Option String)
    (hv : v = none ∨ v = some "") : JujuMan.format_options v = .ok none := by
  rcases hv with rfl | rfl <;> rfl

/-- The fully parsed scan of any help output satisfies the invariant. -/
theorem helpScanOf_inv (text : String) :
    goodStates (helpScanOf text).states ∧ (helpScanOf text).commands = [] :=
  foldl_helpLine_inv _ helpInit goodStates_nil rfl

/-- `JujuMan.help` never raises, always returns an empty command list and a
`None` options field, and each of summary/details/examples is `None` (header
absent) or `''` (header present). -/
theorem help_ok (text : String) :
    ∃ r : HelpResult, JujuMan.help text = Except.ok r ∧ r.commands = [] ∧
      r.options = none ∧
      (r.summary = none ∨ r.summary = some "") ∧
      (r.details = none ∨ r.details = some "") ∧
      (r.examples = none ∨ r.examples = some "") := by
  have h := helpScanOf_inv text
  have hopts : JujuMan.format_options
      (dictGet? (helpScanOf text).states "options:") = .ok none :=
    format_options_degenerate _ (dictGet?_good _ _ h.1)
  refine ⟨{ summary := dictGet? (helpScanOf text).states "summary:"
            options := none
            details := dictGet? (helpScanOf text).states "details:"
            examples := dictGet? (helpScanOf text).states "examples:"
            commands := (helpScanOf text).commands }, ?_, h.2, rfl,
          dictGet?_good _ _ h.1, dictGet?_good _ _ h.1, dictGet?_good _ _ h.1⟩
  unfold JujuMan.help
  rw [hopts]

/-- Claim C3: for every help-text input the parser returns an empty commands
list and `None` for options, and each of summary, details and examples is
either `None` (header absent) or the empty string (header present): the
appending branches of the scan are unreachable because `state` is overwritten
with the current line on every iteration. -/
theorem claim_C3 (text : String) :
    ∃ r : HelpResult, JujuMan.help text = Except.ok r ∧ r.commands = [] ∧
      r.options = none ∧
      (r.summary = none ∨ r.summary = some "") ∧
      (r.details = none ∨ r.details = some "") ∧
      (r.examples = none ∨ r.examples = some "") :=
  help_ok text

/-! ## Claim C9 -/

theorem splitOnceL_no (c : Char) :
    ∀ l : List Char, hasChar l c = false → splitOnceL c l = [l] := by
  intro l
  induction l with
  | nil => intro _; rfl
  | cons a as ih =>
    intro h
    simp only [hasChar] at h
    by_cases hac : a = c
    · rw [if_pos hac] at h
      cases h
    · rw [if_neg hac] at h
      simp only [splitOnceL, if_neg hac, ih h]

theorem splitOnceL_two (c : Char) :
    ∀ l : List Char, hasChar l c = true → ∃ x y, splitOnceL c l = [x, y] := by
  intro l
  induction l with
  | nil => intro h; cases h
  | cons a as ih =>
    intro h
    by_cases hac : a = c
    · exact ⟨[], as, by simp [splitOnceL, hac]⟩
    · simp only [hasChar, if_neg hac] at h
      obtain ⟨x, y, hxy⟩ := ih h
      exact ⟨a :: x, y, by simp [splitOnceL, if_neg hac, hxy]⟩

theorem format_files_go_error :
    ∀ lines : List String, (∃ l ∈ lines, hasChar l.data '\t' = false) →
      format_files_go lines =
        .error "IndexError: Replacement index 1 out of range" := by
  intro lines
  induction lines with
  | nil =>
    rintro ⟨l, hl, -⟩
    cases hl
  | cons a rest ih =>
    rintro ⟨l, hl, hnt⟩
    cases ha : hasChar a.data '\t' with
    | false =>
      have hsp : splitOnce a '\t' = [a] := by
        unfold splitOnce
        rw [splitOnceL_no '\t' a.data ha]
        rfl
      simp only [format_files_go, hsp]
    | true =>
      obtain ⟨x, y, hxy⟩ := splitOnceL_two '\t' a.data ha
      have hsp : splitOnce a '\t' = [⟨x⟩, ⟨y⟩] := by
        unfold splitOnce
        rw [hxy]
        rfl
      have hrest : ∃ l ∈ rest, hasChar l.data '\t' = false := by
        rcases List.mem_cons.mp hl with h | h
        · subst h
          rw [hnt] at ha
          cases ha
        · exact ⟨l, h, hnt⟩
      simp only [format_files_go, hsp, ih hrest]

theorem format_files_error (files : String) (hne : files ≠ "")
    (hbad : ∃ l ∈ pySplit files '\n', hasChar l.data '\t' = false) :
    JujuMan.format_files (some files) =
      .error "IndexError: Replacement index 1 out of range" := by
  unfold JujuMan.format_files
  have ht : pyTruthy (some files) = true := by simp [pyTruthy, hne]
  rw [if_pos ht]
  rw [show (some files).getD "" = files from rfl]
  rw [format_files_go_error _ hbad]

theorem filesBlockOf_some_error (files e : String)
    (ht : pyTruthy (some files) = true)
    (hf : JujuMan.format_files (some files) = .error e) :
    filesBlockOf (some files) = .error e := by
  unfold filesBlockOf
  rw [if_pos ht, hf]

/-- Claim C9: the file-list formatter splits each newline-separated entry
once on the tab character and emits one `.TP`/`.I`/description block per
entry; an entry containing no tab raises an unpacking/index error, which
propagates through `write_documentation` and aborts generation (the
malformed entry is not skipped). -/
theorem claim_C9 :
    JujuMan.format_files (some "p1\td1\np2\td2") =
      Except.ok (some ".TP\n.I \"p1\"\nd1\n.TP\n.I \"p2\"\nd2\n")
    ∧ ∀ files : String, files ≠ "" →
        (∃ l ∈ pySplit files '\n', hasChar l.data '\t' = false) →
        JujuMan.format_files (some files) =
          Except.error "IndexError: Replacement index 1 out of range"
        ∧ ∀ (cfg : JujuManCfg) (helpOutput datestamp timestamp : String),
            cfg.files = some files →
            JujuMan.write_documentation cfg helpOutput datestamp timestamp =
              Except.error "IndexError: Replacement index 1 out of range" := by
  refine ⟨rfl, ?_⟩
  intro files hne hbad
  have hff := format_files_error files hne hbad
  refine ⟨hff, ?_⟩
  intro cfg helpOutput datestamp timestamp hcfg
  obtain ⟨r, hr, -⟩ := help_ok helpOutput
  have ht : pyTruthy (some files) = true := by simp [pyTruthy, hne]
  have hfb : filesBlockOf cfg.files =
      .error "IndexError: Replacement index 1 out of range" := by
    rw [hcfg]
    exact filesBlockOf_some_error files _ ht hff
  unfold JujuMan.write_documentation
  rw [hr, hfb]

/-- Claim C9 witness: a concrete file-list entry with no tab aborts
generation with the propagated error. -/
theorem claim_C9_witness :
    JujuMan.write_documentation ⟨"charm", none, some "nofile", none, none, none⟩
        "" "2016-01-01" "TS" =
      Except.error "IndexError: Replacement index 1 out of range" := by
  exact (claim_C9.2 "nofile" (by decide) ⟨"nofile", by decide, by decide⟩).2
    ⟨"charm", none, some "nofile", none, none, none⟩ "" "2016-01-01" "TS" rfl

/-! ## Claims C6, C7, C8, C10 -/

/-- Claim C6 (counterexample): the claim states that static template text is
written without being escaped.  The head template's static ` -- ` separator
(`man_head_fmt` contains it verbatim) appears in the generated document only
in escaped form ` \-\- `, because `write_documentation` escapes the whole
interpolated head block (`man_escape(man_head % params)`), static skeleton
included. -/
theorem claim_C6_cex :
    strHasS (man_head_fmt "charm" "" "2016-01-01" "1.0" "None" "None") " -- " = true
    ∧ docContains (JujuMan.write_documentation
        ⟨"charm", none, none, none, none, some "1.0"⟩ "" "2016-01-01" "TS")
        " \\-\\- " = true
    ∧ docContains (JujuMan.write_documentation
        ⟨"charm", none, none, none, none, some "1.0"⟩ "" "2016-01-01" "TS")
        " -- " = false := by
  refine ⟨by decide, by decide, by decide⟩

/-- Claim C6 (amended): dynamic help-derived text is escaped, but not
field-by-field: each interpolated block (head, synopsis, description,
command overview, examples, files) is escaped wholesale after substitution,
so the static skeleton of those blocks is escaped too; only the preamble,
the environment block and the SEE ALSO line are written without escaping.
Concretely: a file entry `path-x` appears escaped as `path\-x`, the head's
static ` -- ` appears as ` \-\- `, while the preamble's `\(aq` and the SEE
ALSO `\fB...\fR(1)` markup appear verbatim (their backslashes are not
doubled). -/
theorem claim_C6_amended :
    docContains (JujuMan.write_documentation
        ⟨"charm", none, some "path-x\tabout-x", none, none, some "1.0"⟩
        "" "2016-01-01" "TS") ".I \"path\\-x\"" = true
    ∧ docContains (JujuMan.write_documentation
        ⟨"charm", none, some "path-x\tabout-x", none, none, some "1.0"⟩
        "" "2016-01-01" "TS") " \\-\\- " = true
    ∧ docContains (JujuMan.write_documentation
        ⟨"charm", none, some "path-x\tabout-x", none, none, some "1.0"⟩
        "" "2016-01-01" "TS") ".ds Aq \\(aq" = true
    ∧ docContains (JujuMan.write_documentation
        ⟨"charm", none, some "path-x\tabout-x", none, none, some "1.0"⟩
        "" "2016-01-01" "TS") "\\\\(aq" = false
    ∧ docContains (JujuMan.write_documentation
        ⟨"charm", none, some "path-x\tabout-x", none, none, some "1.0"⟩
        "" "2016-01-01" "TS") "\\fBcharm\\fR(1), " = true
    ∧ docContains (JujuMan.write_documentation
        ⟨"charm", none, some "path-x\tabout-x", none, none, some "1.0"⟩
        "" "2016-01-01" "TS") "\\\\fB" = false := by
  refine ⟨by decide, by decide, by decide, by decide, by decide, by decide⟩

/-- Claim C7: with no subcommand requested the synopsis (from `man_syn`)
contains both a bare `help` invocation form (`.B "help"`) and a
`help <command>` form (`.B "help"` followed by `.I "command"`); with
subcommand `deploy` requested the synopsis (from `man_syn_sub`) contains the
bare `help` form but no `help <command>` form anywhere in the document. -/
theorem claim_C7 :
    docContains (JujuMan.write_documentation
        ⟨"charm", none, none, none, none, some "1.0"⟩ "" "2016-01-01" "TS")
        ".B \"help\"" = true
    ∧ docContains (JujuMan.write_documentation
        ⟨"charm", none, none, none, none, some "1.0"⟩ "" "2016-01-01" "TS")
        ".B \"help\"\n.I \"command\"" = true
    ∧ docContains (JujuMan.write_documentation
        ⟨"charm", none, none, some "deploy", none, some "1.0"⟩ "" "2016-01-01" "TS")
        ".B \"help\"" = true
    ∧ docContains (JujuMan.write_documentation
        ⟨"charm", none, none, some "deploy", none, some "1.0"⟩ "" "2016-01-01" "TS")
        ".B \"help\"\n.I \"command\"" = false := by
  refine ⟨by decide, by decide, by decide, by decide⟩

/-- Claim C8: with zero discovered commands the SEE ALSO block holds exactly
one cross-reference, the self-reference `\fBcharm\fR(1)` (also checked on the
whole generated document); with two discovered commands `a` and `b` it holds
exactly two cross-references `\fBcharm-a\fR(1)` and `\fBcharm-b\fR(1)` and no
self-reference. -/
theorem claim_C8 :
    countSubS (sacBlock "charm" []) "\\fR(1)" = 1
    ∧ strHasS (sacBlock "charm" []) "\\fBcharm\\fR(1), " = true
    ∧ docCount (JujuMan.write_documentation
        ⟨"charm", none, none, none, none, some "1.0"⟩ "" "2016-01-01" "TS")
        "\\fR(1)" = 1
    ∧ countSubS (sacBlock "charm" [("a", "does a"), ("b", "does b")])
        "\\fR(1)" = 2
    ∧ strHasS (sacBlock "charm" [("a", "does a"), ("b", "does b")])
        "\\fBcharm-a\\fR(1), " = true
    ∧ strHasS (sacBlock "charm" [("a", "does a"), ("b", "does b")])
        "\\fBcharm-b\\fR(1), " = true
    ∧ strHasS (sacBlock "charm" [("a", "does a"), ("b", "does b")])
        "\\fBcharm\\fR(1)" = false := by
  refine ⟨by decide, by decide, by decide, by decide, by decide, by decide,
    by decide⟩

/-- Claim C10: the claim states that without `-v` the man page's `.TH` line
uses the default version `"0.0.1"`.  The code does not: `main` always passes
`version=options.version` (argparse leaves it `None` when `-v` is absent),
which overrides `__init__`'s `'0.0.1'` default, so the `.TH` line renders
the version field as `None` and `0.0.1` appears nowhere in the document.
The second conjunct shows the `'0.0.1'` default does exist in `__init__`
and applies only when the argument is omitted — which `main` never does. -/
theorem claim_C10 :
    (mainCfg "charm" none none none none none).version = none
    ∧ (JujuMan.init "charm" none none none none none).version = some "0.0.1"
    ∧ docContains (JujuMan.write_documentation
        (mainCfg "charm" none none none none none) "" "2016-01-01" "TS")
        ".TH charm 1 \"2016\\-01\\-01\" \"None\"" = true
    ∧ docContains (JujuMan.write_documentation
        (mainCfg "charm" none none none none none) "" "2016-01-01" "TS")
        "0.0.1" = false := by
  refine ⟨rfl, rfl, by decide, by decide⟩
